import Mathlib

/-!
Verification development for the background task queue of the tgb repository
(`app/services/task_queue.py`).

The Python module is shallowly embedded:
* `datetime` values are modelled as `Nat` (epoch timestamps; `isoformat`
  round-trips a datetime losslessly, so the serialized form is kept as `Nat`);
* Python floats (`retry_delay`, `timeout`, execution times) are modelled as `ℚ`
  (the claims only concern exact products with powers of two);
* the pickled-and-hex-encoded `args`/`kwargs` blobs are opaque `String`s
  (`pickle.dumps`/`bytes.fromhex` round-trip byte-for-byte);
* `json.dumps(asdict(task.config))` is modelled as the fallible function it
  is: `TaskPriority` and `TaskType` are plain `Enum` subclasses (not
  `str`/`int` mixins), `dataclasses.asdict` copies their members unchanged
  into the dict, and `json.dumps` raises `TypeError` on an `Enum` member, so
  the serializer fails on every task and `save_task` always lands in its
  `except` branch and returns `False`;
* the Redis hash under key `task:{id}` is an association list keyed by the
  task id, and the per-task-type sorted set under `queue:{type}` is a list of
  `(member, score)` pairs kept sorted ascending by `(score, member)` exactly
  as a Redis ZSET orders its members (score, then lexicographic member).
-/

namespace TaskQueue

/-- `TaskStatus` enum of the source. -/
inductive TaskStatus where
  | pending
  | running
  | completed
  | failed
  | retrying
  | cancelled
  | timeout
deriving DecidableEq, Repr

/-- The `.value` string of each `TaskStatus` member. -/
def TaskStatus.value : TaskStatus → String
  | .pending => "pending"
  | .running => "running"
  | .completed => "completed"
  | .failed => "failed"
  | .retrying => "retrying"
  | .cancelled => "cancelled"
  | .timeout => "timeout"

/-- `TaskStatus(s)` enum lookup by value, as used by `_deserialize_task`
    (a bad string raises, i.e. yields `none`). -/
def TaskStatus.ofValue (s : String) : Option TaskStatus :=
  if s = "pending" then some .pending
  else if s = "running" then some .running
  else if s = "completed" then some .completed
  else if s = "failed" then some .failed
  else if s = "retrying" then some .retrying
  else if s = "cancelled" then some .cancelled
  else if s = "timeout" then some .timeout
  else none

/-- `TaskPriority` enum of the source: a plain `Enum` subclass (not an
    `int` mixin), which is what makes its members non-JSON-serializable. -/
inductive TaskPriority where
  | low
  | normal
  | high
  | critical
deriving DecidableEq, Repr

/-- The numeric `.value` of each `TaskPriority` member (LOW=1 .. CRITICAL=4). -/
def TaskPriority.value : TaskPriority → Nat
  | .low => 1
  | .normal => 2
  | .high => 3
  | .critical => 4

/-- `TaskType` enum of the source (again a plain `Enum` subclass), in
    declaration order (the order `get_pending_tasks` scans the partitions
    in). -/
inductive TaskType where
  | file_upload
  | file_download
  | file_process
  | file_cleanup
  | notification
  | subscription_check
  | virus_scan
  | thumbnail_generate
  | archive_create
  | backup
deriving DecidableEq, Repr

/-- The members of `TaskType` in declaration order (`for task_type in TaskType`). -/
def TaskType.all : List TaskType :=
  [.file_upload, .file_download, .file_process, .file_cleanup, .notification,
   .subscription_check, .virus_scan, .thumbnail_generate, .archive_create, .backup]

/-- `TaskResult` dataclass of the source. `result` carries the payload value
    (opaque, modelled as a `String`). -/
structure TaskResult where
  success : Bool
  result : Option String := none
  error : Option String := none
  execution_time : ℚ := 0
  memory_used : Option Nat := none
  retries_used : Nat := 0
deriving DecidableEq, Repr

/-- `TaskConfig` dataclass of the source (the fields the queue core reads;
    `max_memory_mb` and `requires_user_subscription` are never read by the
    queue core and are JSON-serializable scalars, so they play no role in
    the serializer's failure). -/
structure TaskConfig where
  max_retries : Nat := 3
  retry_delay : ℚ := 1
  timeout : Option ℚ := some 300
  priority : TaskPriority := .normal
  task_type : TaskType := .file_process
deriving DecidableEq, Repr

/-- `Task` dataclass of the source. `func` is persisted by reflection as the
    pair (`__module__`, `__name__`), which is how the embedding carries it.
    `args`/`kwargs` are the opaque pickled blobs. -/
structure Task where
  id : String
  func_module : String
  func_name : String
  args : String
  kwargs : String
  config : TaskConfig
  created_at : Nat
  status : TaskStatus := .pending
  started_at : Option Nat := none
  completed_at : Option Nat := none
  retries : Nat := 0
  error_history : List String := []
  result : Option TaskResult := none
  worker_id : Option String := none
  user_id : Option String := none
deriving DecidableEq, Repr

/-- A Python value as it appears in the dict `dataclasses.asdict` builds
    from a `TaskConfig`: `asdict` deep-copies values and leaves `Enum`
    members unchanged, so the enum members appear as enum leaves, not as
    their `.value` scalars. -/
inductive PyVal where
  | int (n : Int)
  | float (q : ℚ)
  | str (s : String)
  | noneVal
  | enumPriority (p : TaskPriority)
  | enumType (ty : TaskType)
deriving DecidableEq, Repr

/-- `dataclasses.asdict(task.config)` restricted to the embedded fields:
    the scalar fields stay scalars, the enum-typed fields stay `Enum`
    members. -/
def TaskConfig.asdict (c : TaskConfig) : List (String × PyVal) :=
  [("max_retries", .int c.max_retries),
   ("retry_delay", .float c.retry_delay),
   ("timeout", match c.timeout with | some q => .float q | none => .noneVal),
   ("priority", .enumPriority c.priority),
   ("task_type", .enumType c.task_type)]

/-- Whether `json.dumps` accepts a value: scalars and `None` encode, a
    plain `Enum` member raises `TypeError: Object of type ... is not JSON
    serializable`. -/
def json_serializable : PyVal → Bool
  | .int _ => true
  | .float _ => true
  | .str _ => true
  | .noneVal => true
  | .enumPriority _ => false
  | .enumType _ => false

/-- `json.dumps(asdict(task.config))`: succeeds only when every value of the
    dict is JSON-serializable; the encoded payload is kept at its decoded
    type. Because `asdict` leaves the `priority` and `task_type` members as
    plain `Enum` values, this raises `TypeError` for every config. -/
def json_dumps_config (c : TaskConfig) : Option TaskConfig :=
  if (c.asdict.map Prod.snd).all json_serializable then some c else none

/-- The Redis hash `RedisTaskStorage._serialize_task` tries to build:
    exactly the eleven fields the source writes. `started_at`,
    `completed_at`, `result` and `worker_id` have no field here because the
    source does not write them. Encodings that round-trip losslessly
    (isoformat, json, str, hex) are kept at their decoded types. In the
    source this hash is never actually produced: encoding `config` raises
    `TypeError` first (see `json_dumps_config`). -/
structure SerializedFields where
  id : String
  func_module : String
  func_name : String
  args : String
  kwargs : String
  config : TaskConfig
  created_at : Nat
  status : String
  retries : Nat
  user_id : String
  error_history : List String
deriving DecidableEq, Repr

/-- `RedisTaskStorage._serialize_task`: builds the field mapping, with
    `user_id` stored as `task.user_id or ""` — but the
    `json.dumps(asdict(task.config))` step raises `TypeError` on the
    enum-valued config, so the function never returns normally (`none`). -/
def serialize_task (t : Task) : Option SerializedFields :=
  match json_dumps_config t.config with
  | none => none
  | some cfg =>
      some { id := t.id
             func_module := t.func_module
             func_name := t.func_name
             args := t.args
             kwargs := t.kwargs
             config := cfg
             created_at := t.created_at
             status := t.status.value
             retries := t.retries
             user_id := t.user_id.getD ""
             error_history := t.error_history }

/-- `RedisTaskStorage._deserialize_task` on a full hash. Fields absent from
    the hash come back at their dataclass defaults (`None` / empty);
    `user_id` of `""` decodes to `None`; an unknown status string raises
    (yields `none`). The embedding keeps the structured `config` as the
    record's shape; note the source's `TaskConfig(**json.loads(...))` would
    rebuild `priority`/`task_type` as the raw scalars of whatever encoding
    was stored, not as enum members — a moot divergence here, because no
    hash is ever written by the program (the serializer always raises), so
    this function is only ever reached on hypothetical store states. -/
def deserialize_task (d : SerializedFields) : Option Task :=
  match TaskStatus.ofValue d.status with
  | none => none
  | some st =>
      some { id := d.id
             func_module := d.func_module
             func_name := d.func_name
             args := d.args
             kwargs := d.kwargs
             config := d.config
             created_at := d.created_at
             status := st
             retries := d.retries
             user_id := if d.user_id = "" then none else some d.user_id
             error_history := d.error_history
             started_at := none
             completed_at := none
             result := none
             worker_id := none }

/-- ZSET entry order: ascending score, ties broken by lexicographic member,
    exactly the order `ZRANGE` enumerates a Redis sorted set in. -/
def entryLE (a b : String × Nat) : Bool :=
  a.2 < b.2 || (a.2 = b.2 && (a.1 < b.1 || a.1 = b.1))

/-- Insert an entry into a score-sorted list, keeping it sorted. -/
def zinsert (e : String × Nat) : List (String × Nat) → List (String × Nat)
  | [] => [e]
  | x :: xs => if entryLE e x then e :: x :: xs else x :: zinsert e xs

/-- `ZADD key {member: score}`: replaces the member's score (a ZSET holds
    each member once) and re-sorts. -/
def zadd (q : List (String × Nat)) (member : String) (score : Nat) :
    List (String × Nat) :=
  zinsert (member, score) (q.filter (fun e => e.1 ≠ member))

/-- `ZRANGE key 0 (limit-1)`: the `limit` lowest-scored members, in ascending
    order. Redis interprets stop index `-1` as the end of the set, so
    `limit = 0` returns every member. -/
def zrange_ids (q : List (String × Nat)) (limit : Nat) : List String :=
  if limit = 0 then q.map (fun e => e.1) else (q.take limit).map (fun e => e.1)

/-- Association-list lookup (Redis `HGETALL task:{id}`; an absent key gives
    the empty hash, i.e. `none`). -/
def aget : List (String × SerializedFields) → String → Option SerializedFields
  | [], _ => none
  | (k, d) :: rest, key => if k = key then some d else aget rest key

/-- Association-list store (Redis `HSET task:{id} mapping=...`; the source
    writes every field, so an existing record is replaced). -/
def aset : List (String × SerializedFields) → String → SerializedFields →
    List (String × SerializedFields)
  | [], key, d => [(key, d)]
  | (k, d0) :: rest, key, d =>
      if k = key then (k, d) :: rest else (k, d0) :: aset rest key d

/-- `HSET task:{id} status v`: update just the status field of an existing
    record. On an absent key Redis would create a hash holding only the
    status field, which `get_task` can never deserialize (the KeyError is
    caught and yields `None`) and which `cleanup_old_tasks` skips (no
    `created_at`), so the absent case is observably a no-op and is modelled
    as one. -/
def aset_status : List (String × SerializedFields) → String → TaskStatus →
    List (String × SerializedFields)
  | [], _, _ => []
  | (k, d) :: rest, key, st =>
      if k = key then (k, { d with status := st.value }) :: rest
      else (k, d) :: aset_status rest key st

/-- The Redis state visible to `RedisTaskStorage`: the task hashes and the
    per-task-type sorted-set indexes, as an association list over `TaskType`
    (absent key = empty sorted set). -/
structure Store where
  tasks : List (String × SerializedFields)
  queues : List (TaskType × List (String × Nat))
deriving DecidableEq, Repr

/-- The empty store (a fresh Redis). -/
def Store.empty : Store := { tasks := [], queues := [] }

/-- Sorted set of a task-type partition. -/
def qget : List (TaskType × List (String × Nat)) → TaskType → List (String × Nat)
  | [], _ => []
  | (ty0, q) :: rest, ty => if ty0 = ty then q else qget rest ty

/-- Replace a partition's sorted set. -/
def qset : List (TaskType × List (String × Nat)) → TaskType →
    List (String × Nat) → List (TaskType × List (String × Nat))
  | [], ty, q => [(ty, q)]
  | (ty0, q0) :: rest, ty, q =>
      if ty0 = ty then (ty0, q) :: rest else (ty0, q0) :: qset rest ty q

/-- `RedisTaskStorage.save_task`: serialize, `HSET` the full hash, `ZADD`
    the id into its task-type partition with score
    `priority.value * 1000 + int(time.time())` (`now` is the epoch second),
    return `True`. Any exception is caught and yields `(s, false)` with no
    write performed — and the serializer raises on every task, so the write
    branch is dead code in the source. -/
def save_task (s : Store) (t : Task) (now : Nat) : Store × Bool :=
  match serialize_task t with
  | none => (s, false)
  | some d =>
      ({ tasks := aset s.tasks t.id d
         queues := qset s.queues t.config.task_type
           (zadd (qget s.queues t.config.task_type) t.id
             (t.config.priority.value * 1000 + now)) }, true)

/-- `RedisTaskStorage.get_task`: fetch the hash and deserialize; an absent
    key or a deserialization error yields `None`. -/
def get_task (s : Store) (id : String) : Option Task :=
  match aget s.tasks id with
  | none => none
  | some d => deserialize_task d

/-- `RedisTaskStorage.update_task_status`: partial update of the status
    field only (no serialization of the config is involved, so unlike
    `save_task` this write succeeds). -/
def update_task_status (s : Store) (id : String) (st : TaskStatus) : Store :=
  { s with tasks := aset_status s.tasks id st }

/-- The worker-eligibility test of `get_pending_tasks`:
    `t.status in {PENDING, RETRYING}`. -/
def is_eligible (st : TaskStatus) : Bool :=
  match st with
  | .pending => true
  | .retrying => true
  | _ => false

/-- One partition's contribution to `get_pending_tasks`: `ZRANGE` the first
    `limit` entries, fetch each id, keep those that exist and are eligible. -/
def pending_from_queue (s : Store) (ty : TaskType) (limit : Nat) : List Task :=
  (zrange_ids (qget s.queues ty) limit).filterMap fun id =>
    match get_task s id with
    | some t => if is_eligible t.status then some t else none
    | none => none

/-- The partition scan of `get_pending_tasks`: types in declaration order,
    stopping at the first partition that contributed any task
    (`if tasks: break`). -/
def scan_queues (s : Store) (limit : Nat) : List TaskType → List Task
  | [] => []
  | ty :: rest =>
      let ts := pending_from_queue s ty limit
      if ts.isEmpty then scan_queues s limit rest else ts

/-- `RedisTaskStorage.get_pending_tasks`. -/
def get_pending_tasks (s : Store) (limit : Nat) : List Task :=
  scan_queues s limit TaskType.all

/-- `RedisTaskStorage.cleanup_old_tasks`: delete every task hash whose
    `created_at` is before the cutoff (the queue indexes are not touched);
    returns the new store and the number deleted. -/
def cleanup_old_tasks (s : Store) (cutoff : Nat) : Store × Nat :=
  ({ s with tasks := s.tasks.filter (fun p => ¬ p.2.created_at < cutoff) },
   (s.tasks.filter (fun p => p.2.created_at < cutoff)).length)

/-- `AdvancedTaskQueue.cancel_task`: fetch; if PENDING or RETRYING, persist
    CANCELLED and return true; otherwise (absent, running or terminal)
    return false without writing. -/
def cancel_task (s : Store) (id : String) : Store × Bool :=
  match get_task s id with
  | none => (s, false)
  | some t =>
      if t.status = .pending ∨ t.status = .retrying then
        (update_task_status s id .cancelled, true)
      else (s, false)

/-- Outcome of awaiting the task function once in `_execute_task`: a normal
    return (with payload, measured execution time and memory delta), a raised
    exception (with its message), or `asyncio.TimeoutError`. -/
inductive AttemptOutcome where
  | ok (value : String) (exec_time : ℚ) (mem_used : Nat)
  | raises (msg : String)
  | timesOut
deriving DecidableEq, Repr

/-- The f-string `"Task timed out after {timeout}s"` of
    `_handle_task_timeout`. -/
def timeout_message (q : Option ℚ) : String :=
  "Task timed out after " ++ (match q with | some x => toString x | none => "None") ++ "s"

/-- `TaskWorker._handle_task_error`: append the attempt's error to
    `error_history`, increment `retries`; if still below `max_retries`,
    mark RETRYING, sleep the backoff delay and re-save (the re-save's return
    value is ignored by the source — and it is always `False`, so the
    incremented counters never persist); else mark FAILED with a failure
    result. Returns the new store, the in-memory task, and the backoff
    delay slept (`none` when the task goes FAILED). `endTime` is the wall
    clock at failure, `now` the epoch second the re-save would score the
    queue entry with. -/
def handle_task_error (s : Store) (t : Task) (err : String) (endTime now : Nat) :
    Store × Task × Option ℚ :=
  let t1 := { t with
    error_history := t.error_history ++
      ["Attempt " ++ toString (t.retries + 1) ++ ": " ++ err]
    retries := t.retries + 1 }
  if t1.retries < t1.config.max_retries then
    let delay := t1.config.retry_delay * 2 ^ (t1.retries - 1)
    let t2 := { t1 with status := .retrying }
    ((save_task (update_task_status s t2.id .retrying) t2 now).1, t2, some delay)
  else
    let t2 := { t1 with
      status := .failed
      completed_at := some endTime
      result := some { success := false, result := none, error := some err,
                       execution_time := 0, memory_used := none,
                       retries_used := t1.retries } }
    (update_task_status s t2.id .failed, t2, none)

/-- `TaskWorker._handle_task_timeout`: mark TIMEOUT with a failure result
    carrying the timed-out message; no retry is scheduled. -/
def handle_task_timeout (s : Store) (t : Task) (endTime : Nat) :
    Store × Task × Option ℚ :=
  let t1 := { t with
    status := .timeout
    completed_at := some endTime
    result := some { success := false, result := none,
                     error := some (timeout_message t.config.timeout),
                     execution_time := 0, memory_used := none,
                     retries_used := 0 } }
  (update_task_status s t1.id .timeout, t1, none)

/-- `TaskWorker._execute_task`: mark the claimed task RUNNING (setting
    `started_at` to the attempt's start time and `worker_id`), persist the
    status, await the function, then dispatch on the outcome. The returned
    `Option ℚ` is the backoff delay slept, if any. -/
def execute_attempt (wid : String) (s : Store) (t : Task)
    (startTime endTime now : Nat) (o : AttemptOutcome) :
    Store × Task × Option ℚ :=
  let t1 := { t with status := .running, started_at := some startTime,
                     worker_id := some wid }
  let s1 := update_task_status s t1.id .running
  match o with
  | .ok v execTime memUsed =>
      let t2 := { t1 with
        result := some { success := true, result := some v, error := none,
                         execution_time := execTime,
                         memory_used := some memUsed,
                         retries_used := t1.retries }
        status := .completed
        completed_at := some endTime }
      (update_task_status s1 t2.id .completed, t2, none)
  | .timesOut => handle_task_timeout s1 t1 endTime
  | .raises e => handle_task_error s1 t1 e endTime now

/-- The store states the program can actually drive Redis into, starting
    from a fresh backend: `add_task` calls `save_task`; `cancel_task` is
    the external cancel path; the monitoring loop calls
    `cleanup_old_tasks`; and a worker mutates the store only through
    `_execute_task` on a task it claimed from `get_pending_tasks`
    (`_process_next_task` uses `limit = 1`). -/
inductive Reachable : Store → Prop where
  | empty : Reachable Store.empty
  | submit (s : Store) (t : Task) (now : Nat) :
      Reachable s → Reachable (save_task s t now).1
  | cancel (s : Store) (id : String) :
      Reachable s → Reachable (cancel_task s id).1
  | cleanup (s : Store) (cutoff : Nat) :
      Reachable s → Reachable (cleanup_old_tasks s cutoff).1
  | work (s : Store) (wid : String) (t : Task)
      (startTime endTime now : Nat) (o : AttemptOutcome) :
      Reachable s → t ∈ get_pending_tasks s 1 →
      Reachable (execute_attempt wid s t startTime endTime now o).1

/-- A sample `TaskConfig` as `add_task` builds it (real enum members). -/
def sampleConfig (p : TaskPriority) (mr : Nat) : TaskConfig :=
  { max_retries := mr, retry_delay := 1, timeout := some 300,
    priority := p, task_type := .notification }

/-- A sample in-memory task as `add_task` builds it before attempting to
    persist it. -/
def sampleTask (id : String) (p : TaskPriority) (mr created : Nat) : Task :=
  { id := id
    func_module := "app.services.task_queue"
    func_name := "send_notification"
    args := "80049502"
    kwargs := "80049503"
    config := sampleConfig p mr
    created_at := created }

/-- A full task hash with the given id and status string. The program never
    writes such a hash (its serializer always raises); it stands for a
    backend populated by an external writer or an earlier version, and is
    used to instantiate the theorems that quantify over arbitrary store
    states. -/
def sampleRecord (id status : String) : SerializedFields :=
  { id := id
    func_module := "app.services.task_queue"
    func_name := "send_notification"
    args := "80049502"
    kwargs := "80049503"
    config := sampleConfig .normal 3
    created_at := 0
    status := status
    retries := 0
    user_id := ""
    error_history := [] }

/-- The task `_deserialize_task` reads back from
    `sampleRecord "task-p" "pending"`. -/
def t_pending : Task :=
  { id := "task-p"
    func_module := "app.services.task_queue"
    func_name := "send_notification"
    args := "80049502"
    kwargs := "80049503"
    config := sampleConfig .normal 3
    created_at := 0
    status := .pending
    retries := 0
    user_id := none
    error_history := []
    started_at := none
    completed_at := none
    result := none
    worker_id := none }

/-- A hypothetical store holding one readable PENDING record (externally
    populated backend). -/
def s_pending : Store :=
  { tasks := [("task-p", sampleRecord "task-p" "pending")]
    queues := [(.notification, [("task-p", 2002)])] }

/-- A hypothetical store whose lowest-scored NOTIFICATION index entry
    refers to a COMPLETED record while an eligible PENDING record sits
    behind it. -/
def s_blocked : Store :=
  { tasks := [("task-a", sampleRecord "task-a" "completed"),
              ("task-b", sampleRecord "task-b" "pending")]
    queues := [(.notification, [("task-a", 1000), ("task-b", 2001)])] }

/-- `TaskStatus(status.value)` recovers the status member. -/
theorem status_ofValue_value (st : TaskStatus) :
    TaskStatus.ofValue st.value = some st := by
  cases st <;> rfl

/-- `_serialize_task` fails on every task: `asdict` leaves the `priority`
    member as a plain `Enum` value and `json.dumps` raises on it. -/
theorem serialize_task_fails (t : Task) : serialize_task t = none := by
  unfold serialize_task json_dumps_config
  cases ht : t.config.timeout <;>
    simp [TaskConfig.asdict, json_serializable, ht]

/-- `save_task` always catches the serializer's `TypeError` and returns
    `False` with the store untouched: the `HSET` and `ZADD` never execute. -/
theorem save_task_fails (s : Store) (t : Task) (now : Nat) :
    save_task s t now = (s, false) := by
  unfold save_task
  rw [serialize_task_fails]

/-- Lookup after a status-only update rewrites just the status field. -/
theorem aget_aset_status (l : List (String × SerializedFields)) (key : String)
    (st : TaskStatus) :
    aget (aset_status l key st) key =
      (aget l key).map (fun d => { d with status := st.value }) := by
  induction l with
  | nil => simp [aget, aset_status]
  | cons x xs ih =>
      by_cases hk : x.1 = key <;> simp [aget, aset_status, hk, ih]

/-- `get_task` as an `Option.bind` over the raw hash lookup. -/
theorem get_task_eq (s : Store) (id : String) :
    get_task s id = (aget s.tasks id).bind deserialize_task := by
  unfold get_task
  cases aget s.tasks id <;> rfl

/-- Re-deserializing after a status-field rewrite changes only
    the parsed status. -/
theorem deserialize_update_status (d : SerializedFields) (st : TaskStatus)
    (t : Task) (h : deserialize_task d = some t) :
    deserialize_task { d with status := st.value } = some { t with status := st } := by
  unfold deserialize_task at h ⊢
  cases h0 : TaskStatus.ofValue d.status with
  | none => rw [h0] at h; cases h
  | some st0 =>
      rw [h0] at h
      injection h with h
      subst h
      simp [status_ofValue_value]

/-- A status update is observed by the next `get_task` as the same task
    with the new status. -/
theorem get_after_update (s : Store) (id : String) (st : TaskStatus) (t : Task)
    (h : get_task s id = some t) :
    get_task (update_task_status s id st) id = some { t with status := st } := by
  rw [get_task_eq] at h
  rw [get_task_eq]
  show (aget (aset_status s.tasks id st) id).bind deserialize_task = _
  rw [aget_aset_status]
  cases h0 : aget s.tasks id with
  | none => rw [h0] at h; exact absurd h (by simp)
  | some d =>
      rw [h0] at h
      simp only [Option.map_some', Option.some_bind] at h ⊢
      exact deserialize_update_status d st t h

/-- Whatever `get_task` returns after a status update of that id carries the
    updated status. -/
theorem status_after_update (s : Store) (id : String) (st : TaskStatus)
    (t' : Task) (h : get_task (update_task_status s id st) id = some t') :
    t'.status = st := by
  rw [get_task_eq] at h
  have hts : (update_task_status s id st).tasks = aset_status s.tasks id st := rfl
  rw [hts, aget_aset_status] at h
  cases h0 : aget s.tasks id with
  | none => rw [h0] at h; exact absurd h (by simp)
  | some d =>
      rw [h0] at h
      simp only [Option.map_some', Option.some_bind] at h
      unfold deserialize_task at h
      simp only [status_ofValue_value] at h
      injection h with h
      subst h
      rfl

/-- Partition lookup after a partition write. -/
theorem qget_qset (qs : List (TaskType × List (String × Nat))) (ty ty' : TaskType)
    (q : List (String × Nat)) :
    qget (qset qs ty q) ty' = if ty = ty' then q else qget qs ty' := by
  induction qs with
  | nil =>
      by_cases h : ty = ty' <;> simp [qget, qset, h]
  | cons x xs ih =>
      obtain ⟨ty0, q0⟩ := x
      by_cases h0 : ty0 = ty
      · subst h0
        by_cases h : ty0 = ty' <;> simp [qget, qset, h]
      · by_cases h1 : ty0 = ty'
        · have hne : ¬ ty = ty' := fun he => h0 (by rw [h1, he])
          have hne' : ¬ ty' = ty := fun he => hne he.symm
          simp [qget, qset, h0, h1, hne, hne']
        · simp [qget, qset, h0, h1, ih]

/-- Membership in the ids of a sorted insert. -/
theorem mem_ids_zinsert (e : String × Nat) (q : List (String × Nat)) (a : String) :
    a ∈ (zinsert e q).map Prod.fst ↔ a = e.1 ∨ a ∈ q.map Prod.fst := by
  induction q with
  | nil => simp [zinsert]
  | cons x xs ih =>
      by_cases h : entryLE e x
      · simp [zinsert, h]
      · simp [zinsert, h, ih]
        tauto

/-- `ZADD` never removes a member name from the sorted set. -/
theorem mem_ids_zadd (q : List (String × Nat)) (m : String) (sc : Nat)
    (a : String) (h : a ∈ q.map Prod.fst) : a ∈ (zadd q m sc).map Prod.fst := by
  unfold zadd
  rw [mem_ids_zinsert]
  by_cases ha : a = m
  · exact Or.inl ha
  · right
    simp only [List.mem_map] at h ⊢
    obtain ⟨e, he, rfl⟩ := h
    exact ⟨e, List.mem_filter.mpr ⟨he, by simpa using ha⟩, rfl⟩

/-- The member ids of a task-type partition's priority index. -/
def queue_ids (s : Store) (ty : TaskType) : List String :=
  (qget s.queues ty).map Prod.fst

/-- `save_task` only inserts into the priority indexes: every member of
    every partition survives a save — vacuously on the source's only live
    branch (the failed save leaves the store untouched), and through `ZADD`
    on the hypothetical success branch. -/
theorem queue_ids_save (s : Store) (t : Task) (now : Nat) (ty : TaskType)
    (a : String) (h : a ∈ queue_ids s ty) :
    a ∈ queue_ids (save_task s t now).1 ty := by
  unfold queue_ids at h ⊢
  unfold save_task
  cases hs : serialize_task t with
  | none => simp only [hs]; exact h
  | some d =>
      simp only [hs]
      rw [qget_qset]
      by_cases hty : t.config.task_type = ty
      · rw [if_pos hty]
        subst hty
        exact mem_ids_zadd _ _ _ _ h
      · rw [if_neg hty]
        exact h

/-- The worker-eligibility of a stored record: it exists, deserializes, and
    its status is PENDING or RETRYING. -/
def eligible_in_store (s : Store) (id : String) : Bool :=
  match get_task s id with
  | some t => is_eligible t.status
  | none => false

/-- If every id in the scanned range of a partition is ineligible (terminal
    status or deleted record), that partition contributes nothing to
    `get_pending_tasks`. -/
theorem pending_from_queue_eq_nil (s : Store) (ty : TaskType) (limit : Nat)
    (h : ∀ id ∈ zrange_ids (qget s.queues ty) limit, eligible_in_store s id = false) :
    pending_from_queue s ty limit = [] := by
  unfold pending_from_queue
  rw [List.filterMap_eq_nil_iff]
  intro id hid
  have h1 := h id hid
  unfold eligible_in_store at h1
  cases h0 : get_task s id with
  | none => simp [h0]
  | some t =>
      rw [h0] at h1
      simp only at h1
      simp [h0, h1]

/-- The backoff delay a failing attempt sleeps:
    `retry_delay * 2 ^ retries` for the incremented counter minus one,
    i.e. `retry_delay * 2 ^ (old retries)`, and nothing when the task goes
    FAILED. -/
theorem execute_raises_delay (wid err : String) (s : Store) (t : Task)
    (startT endT now : Nat) :
    (execute_attempt wid s t startT endT now (.raises err)).2.2 =
      (if t.retries + 1 < t.config.max_retries
       then some (t.config.retry_delay * 2 ^ t.retries)
       else none) := by
  by_cases h : t.retries + 1 < t.config.max_retries <;>
    simp [execute_attempt, handle_task_error, h]

/-- `ZRANGE` over an empty sorted set is empty for every limit. -/
theorem zrange_ids_nil (limit : Nat) : zrange_ids [] limit = [] := by
  cases limit <;> simp [zrange_ids]

/-- A fresh backend offers no task, whatever the limit. -/
theorem get_pending_empty (limit : Nat) :
    get_pending_tasks Store.empty limit = [] := by
  have hscan : ∀ l : List TaskType, scan_queues Store.empty limit l = [] := by
    intro l
    induction l with
    | nil => rfl
    | cons ty rest ih =>
        have hp : pending_from_queue Store.empty ty limit = [] := by
          unfold pending_from_queue
          have hq : qget Store.empty.queues ty = [] := rfl
          rw [hq, zrange_ids_nil]
          rfl
        simp [scan_queues, hp, ih]
  unfold get_pending_tasks
  exact hscan TaskType.all

/-- Every reachable store is the empty store: `save_task` always fails
    before writing, `cancel_task` finds nothing to cancel,
    `cleanup_old_tasks` finds nothing to delete, and a worker never obtains
    a task to execute. -/
theorem reachable_eq_empty (s : Store) (h : Reachable s) : s = Store.empty := by
  induction h with
  | empty => rfl
  | submit s t now _ ih =>
      rw [save_task_fails]
      exact ih
  | cancel s id _ ih =>
      subst ih
      rfl
  | cleanup s cutoff _ ih =>
      subst ih
      rfl
  | work s wid t startT endT now o _ hmem ih =>
      subst ih
      rw [get_pending_empty] at hmem
      simp at hmem

/-- Claim C1 (code bug): submitting the three NOTIFICATION tasks with
    priorities LOW, HIGH, NORMAL never enqueues anything — `_serialize_task`
    raises `TypeError` encoding the enum-valued config, so each `save_task`
    returns `False` with no `HSET`/`ZADD` performed (and `add_task` raises
    `RuntimeError`); `get_pending_tasks` then offers nothing, so the claimed
    HIGH, NORMAL, LOW execution order never materializes. (Had the writes
    occurred, the ascending `ZRANGE` read would offer the lowest-priority
    task first.) -/
theorem c1_submission_never_enqueues :
    save_task Store.empty (sampleTask "task-low" .low 3 0) 0 =
      (Store.empty, false) ∧
    save_task Store.empty (sampleTask "task-high" .high 3 1) 1 =
      (Store.empty, false) ∧
    save_task Store.empty (sampleTask "task-normal" .normal 3 2) 2 =
      (Store.empty, false) ∧
    get_pending_tasks Store.empty 3 = [] ∧
    (get_pending_tasks Store.empty 3).map Task.id ≠
      ["task-high", "task-normal", "task-low"] :=
  ⟨save_task_fails _ _ _, save_task_fails _ _ _, save_task_fails _ _ _,
   get_pending_empty 3, by rw [get_pending_empty]; simp⟩

/-- Claim C2 (code bug): an always-failing task can never exhibit the
    claimed N+1-attempt path to FAILED, because it can never be persisted
    in the first place (the serializer raises, `save_task` returns `False`,
    `add_task` raises `RuntimeError`) and no reachable store ever offers a
    task to a worker — so no execution attempt, no retry and no FAILED
    transition ever occurs. -/
theorem c2_no_execution_ever :
    (∀ s : Store, Reachable s → ∀ limit, get_pending_tasks s limit = []) ∧
    serialize_task (sampleTask "t2" .normal 1 0) = none ∧
    save_task Store.empty (sampleTask "t2" .normal 1 0) 0 =
      (Store.empty, false) :=
  ⟨fun s hs limit => by rw [reachable_eq_empty s hs]; exact get_pending_empty limit,
   serialize_task_fails _, save_task_fails _ _ _⟩

/-- Witness for C2 at the concrete reachable store. -/
theorem c2_witness : get_pending_tasks Store.empty 5 = [] :=
  c2_no_execution_ever.1 Store.empty Reachable.empty 5

/-- Claim C3: in every store the program can reach, no readable task exists
    at all — `save_task` never persists one — so no task ever reaches a
    terminal status (the cancel path included: `cancel_task` never finds a
    task to cancel) and the invariant "every terminal task has a non-null
    result and completed_at" holds vacuously. -/
theorem c3_terminal_vacuous (s : Store) (hs : Reachable s) :
    (∀ id, get_task s id = none) ∧
    (∀ (id : String) (t : Task), get_task s id = some t →
      (t.status = TaskStatus.completed ∨ t.status = TaskStatus.failed ∨
       t.status = TaskStatus.cancelled ∨ t.status = TaskStatus.timeout) →
      t.result ≠ none ∧ t.completed_at ≠ none) := by
  have he := reachable_eq_empty s hs
  subst he
  refine ⟨fun id => rfl, ?_⟩
  intro id t hget _
  rw [show get_task Store.empty id = none from rfl] at hget
  simp at hget

/-- Witness for C3 at the concrete reachable store. -/
theorem c3_witness : get_task Store.empty "task-a" = none :=
  (c3_terminal_vacuous Store.empty Reachable.empty).1 "task-a"

/-- Claim C4 (code bug): no save ever succeeds, so the demanded lossless
    save/get round trip never happens: `_serialize_task` raises `TypeError`
    on the enum-valued config for every task, and `save_task` returns
    `False` leaving the store untouched. -/
theorem c4_serialize_never_succeeds (s : Store) (t : Task) (now : Nat) :
    serialize_task t = none ∧ save_task s t now = (s, false) :=
  ⟨serialize_task_fails t, save_task_fails s t now⟩

/-- Claim C5: `cancel_task` returns true exactly when the task exists with
    status PENDING or RETRYING; then the CANCELLED status is persisted (a
    subsequent fetch sees it); in every other case it returns false and the
    store is left completely unchanged, so a RUNNING task's record — and
    hence its eventual outcome — is untouched. -/
theorem c5_cancel_iff (s : Store) (id : String) :
    ((cancel_task s id).2 = true ↔
      ∃ t, get_task s id = some t ∧
        (t.status = TaskStatus.pending ∨ t.status = TaskStatus.retrying)) ∧
    ((cancel_task s id).2 = false → (cancel_task s id).1 = s) ∧
    ((cancel_task s id).2 = true →
      (cancel_task s id).1 = update_task_status s id TaskStatus.cancelled ∧
      ∃ t', get_task (cancel_task s id).1 id = some t' ∧
        t'.status = TaskStatus.cancelled) := by
  unfold cancel_task
  cases h0 : get_task s id with
  | none =>
      refine ⟨?_, ?_, ?_⟩ <;> simp
  | some t =>
      dsimp only
      by_cases hs : t.status = TaskStatus.pending ∨ t.status = TaskStatus.retrying
      · rw [if_pos hs]
        refine ⟨iff_of_true rfl ⟨t, rfl, hs⟩, ?_, ?_⟩
        · intro hb; simp at hb
        · intro _
          exact ⟨rfl, { t with status := .cancelled },
            get_after_update s id .cancelled t h0, rfl⟩
      · rw [if_neg hs]
        refine ⟨?_, ?_, ?_⟩
        · refine iff_of_false (by simp) ?_
          intro ⟨t1, ht1, hst1⟩
          injection ht1 with ht1
          subst ht1
          exact hs hst1
        · intro _; rfl
        · intro hb; simp at hb

/-- Witness for C5 at a concrete store holding a PENDING record. -/
theorem c5_witness : (cancel_task s_pending "task-p").2 = true :=
  (c5_cancel_iff s_pending "task-p").1.mpr ⟨t_pending, by decide, Or.inl rfl⟩

/-- Claim C6: a timed-out execution goes to the terminal TIMEOUT state with
    a failure result carrying the timed-out message and the completion
    time, sleeps no backoff delay, leaves the retry counter unchanged, and
    — whatever `max_retries` allows — is never retried: TIMEOUT is not an
    eligible status and the persisted record is no longer claimable. -/
theorem c6_timeout_terminal (wid : String) (s : Store) (t : Task)
    (startT endT now : Nat) :
    (execute_attempt wid s t startT endT now .timesOut).2.1.status =
      TaskStatus.timeout ∧
    (execute_attempt wid s t startT endT now .timesOut).2.1.completed_at =
      some endT ∧
    (execute_attempt wid s t startT endT now .timesOut).2.1.result =
      some { success := false, result := none,
             error := some (timeout_message t.config.timeout),
             execution_time := 0, memory_used := none, retries_used := 0 } ∧
    (execute_attempt wid s t startT endT now .timesOut).2.1.retries =
      t.retries ∧
    (execute_attempt wid s t startT endT now .timesOut).2.2 = none ∧
    is_eligible TaskStatus.timeout = false ∧
    eligible_in_store (execute_attempt wid s t startT endT now .timesOut).1
      t.id = false := by
  have hstore : (execute_attempt wid s t startT endT now .timesOut).1 =
      update_task_status (update_task_status s t.id .running) t.id .timeout :=
    rfl
  refine ⟨rfl, rfl, rfl, rfl, rfl, rfl, ?_⟩
  rw [hstore]
  unfold eligible_in_store
  cases h : get_task (update_task_status (update_task_status s t.id .running)
      t.id .timeout) t.id with
  | none => rfl
  | some t' =>
      have hst := status_after_update _ _ _ _ h
      dsimp only
      rw [hst]
      rfl

/-- Claim C7: the backoff delay slept after failing attempt `i` (1-based),
    when a retry follows, is `retry_delay * 2 ^ (i - 1)`; in particular the
    delay after the first failed attempt is `retry_delay`. -/
theorem c7_backoff_delay (wid : String) (s : Store) (t : Task)
    (startT endT now : Nat) (err : String) (i : Nat)
    (h1 : 1 ≤ i) (h2 : t.retries = i - 1) (h3 : i < t.config.max_retries) :
    (execute_attempt wid s t startT endT now (.raises err)).2.2 =
      some (t.config.retry_delay * 2 ^ (i - 1)) := by
  rw [execute_raises_delay,
    if_pos (show t.retries + 1 < t.config.max_retries by omega), h2]

/-- Witness for C7: attempt 1 of a task with `retry_delay = 1` and
    `max_retries = 2` sleeps `retry_delay * 2 ^ 0`. -/
theorem c7_witness :
    (execute_attempt "worker-1" Store.empty (sampleTask "t7" .normal 2 0)
      0 1 2 (.raises "boom")).2.2 =
      some ((sampleTask "t7" .normal 2 0).config.retry_delay * 2 ^ (1 - 1)) :=
  c7_backoff_delay "worker-1" Store.empty (sampleTask "t7" .normal 2 0)
    0 1 2 "boom" 1 (by decide) (by decide) (by decide)

/-- Claim C8: in every store the program can reach, no task is ever offered
    to a worker (so no execution attempt, hence no FAILED transition, ever
    happens) and no readable task exists; the invariant
    "retries ≤ max_retries at the moment FAILED is reached" therefore holds
    vacuously, for every configured `max_retries` including 0. -/
theorem c8_failed_vacuous (s : Store) (hs : Reachable s) :
    (∀ limit, get_pending_tasks s limit = []) ∧
    (∀ (id : String) (t : Task), get_task s id = some t →
      t.status = TaskStatus.failed → t.retries ≤ t.config.max_retries) := by
  have he := reachable_eq_empty s hs
  subst he
  refine ⟨fun limit => get_pending_empty limit, ?_⟩
  intro id t hget _
  rw [show get_task Store.empty id = none from rfl] at hget
  simp at hget

/-- Witness for C8 at the concrete reachable store. -/
theorem c8_witness : get_pending_tasks Store.empty 1 = [] :=
  (c8_failed_vacuous Store.empty Reachable.empty).1 1

/-- Claim C9: in every store the program can reach, no task is ever claimed
    (the poll returns nothing), so no PENDING-to-RUNNING transition — first
    or retried — ever happens, and every stored record (there are none)
    would in any case carry `started_at = none`; the claim that
    `started_at` is set exactly once and never reset on retry holds
    vacuously. -/
theorem c9_started_at_vacuous (s : Store) (hs : Reachable s) :
    (∀ limit, get_pending_tasks s limit = []) ∧
    (∀ (id : String) (t : Task), get_task s id = some t →
      t.started_at = none) := by
  have he := reachable_eq_empty s hs
  subst he
  refine ⟨fun limit => get_pending_empty limit, ?_⟩
  intro id t hget
  rw [show get_task Store.empty id = none from rfl] at hget
  simp at hget

/-- Witness for C9 at the concrete reachable store. -/
theorem c9_witness : get_pending_tasks Store.empty 2 = [] :=
  (c9_started_at_vacuous Store.empty Reachable.empty).1 2

/-- Claim C10: no queue operation removes an id from a task-type priority
    index — `save_task` only inserts (and on its only live branch writes
    nothing at all), `update_task_status` and the cleanup sweep leave the
    indexes untouched — and consequently, whenever the scanned `ZRANGE`
    prefix of a partition holds only ids whose records are terminal or
    deleted, that partition contributes no task to `get_pending_tasks`,
    even if eligible tasks sit further down the index. -/
theorem c10_index_never_pruned :
    (∀ (s : Store) (t : Task) (now : Nat) (ty : TaskType) (a : String),
      a ∈ queue_ids s ty → a ∈ queue_ids (save_task s t now).1 ty) ∧
    (∀ (s : Store) (id : String) (st : TaskStatus),
      (update_task_status s id st).queues = s.queues) ∧
    (∀ (s : Store) (cutoff : Nat),
      (cleanup_old_tasks s cutoff).1.queues = s.queues) ∧
    (∀ (s : Store) (ty : TaskType) (limit : Nat),
      (∀ id ∈ zrange_ids (qget s.queues ty) limit,
        eligible_in_store s id = false) →
      pending_from_queue s ty limit = []) :=
  ⟨queue_ids_save, fun _ _ _ => rfl, fun _ _ => rfl,
    fun s ty limit h => pending_from_queue_eq_nil s ty limit h⟩

/-- Witness for C10: in the concrete store whose lowest-scored NOTIFICATION
    entry is a COMPLETED task, a `limit = 1` scan contributes nothing even
    though an eligible task remains in the partition. -/
theorem c10_witness :
    pending_from_queue s_blocked .notification 1 = [] ∧
    eligible_in_store s_blocked "task-b" = true :=
  ⟨c10_index_never_pruned.2.2.2 s_blocked .notification 1 (by decide),
    by decide⟩

end TaskQueue
